import Mathlib

/-!
Verification of the safe-nd data-type library: a shallow embedding of the
versioned permissioned `Sequence` type, the multi-scheme key/signature layer
and the money-request routing table, with theorems checking the repository's
specification against the code.

Machine integers (`u64`, `usize`) are embedded as `Nat`: every operation in
scope only ever compares them with, or sets them to, collection lengths, so no
overflow behaviour is observable. `Vec<T>` becomes `List T`, `&mut self`
methods become state-passing functions returning `Except Error Unit × State`
(the returned state equals the input state exactly when the Rust method
returned before mutating `self`), and `BTreeMap` becomes an association list
queried with `List.lookup`.
-/

namespace SafeNd

/-- Error kinds. The repository's `errors.rs` is not part of the sources at
hand; modelled from the spec (§7: successor-mismatch kinds carrying the
expected value, read-miss kinds, key/signature scheme mismatch, cryptographic
failure), with the exact constructor names and payloads used at the call sites
in `sequence.rs` and `keys`. -/
inductive Error where
  | InvalidSuccessor (expected : Nat)
  | InvalidOwnersSuccessor (expected : Nat)
  | InvalidPermissionsSuccessor (expected : Nat)
  | NoSuchEntry
  | NoSuchData
  | SigningKeyTypeMismatch
  | InvalidSignature
deriving DecidableEq, Repr

/-- A 256-bit XOR-space name, embedded as its byte list. -/
structure XorName where
  bytes : List Nat
deriving DecidableEq, Repr

/-- Relative index into a growing log, from `shared_data.rs` (not among the
sources at hand); shape pinned by its uses in `sequence.rs`. -/
inductive Index where
  | FromStart (n : Nat)
  | FromEnd (n : Nat)
deriving DecidableEq, Repr

/-- Modelled from the spec: `resolve_index` of §4.1 (`to_absolute_index` in
`shared_data.rs`, not among the sources at hand). `FromStart n` resolves to
`n` iff `n ≤ len`; `FromEnd n` resolves to `len - n` iff `n ≤ len`; otherwise
`none`. -/
def to_absolute_index : Index → Nat → Option Nat
  | .FromStart n, len => if n ≤ len then some n else none
  | .FromEnd n, len => if n ≤ len then some (len - n) else none

/-- Modelled from the spec: `resolve_range` of §4.1 (`to_absolute_range` in
`shared_data.rs`, not among the sources at hand). A range resolves only if
both bounds resolve and `start ≤ end`; equal bounds yield a valid empty
range. Returned as the half-open pair of absolute offsets. -/
def to_absolute_range (start finish : Index) (len : Nat) : Option (Nat × Nat) :=
  match to_absolute_index start len, to_absolute_index finish len with
  | some a, some b => if a ≤ b then some (a, b) else none
  | _, _ => none

/-- Wrapper for different public key types (`keys/mod.rs`). The scheme-specific
key material is opaque to this library; embedded as its byte list. -/
inductive PublicKey where
  | Ed25519 (key : List Nat)
  | Bls (key : List Nat)
  | BlsShare (key : List Nat)
deriving DecidableEq, Repr

/-- The `From<PublicKey> for XorName` conversion in `keys/mod.rs`: an Ed25519
key's 32 bytes are the name; a BLS (share) key contributes the first
`XOR_NAME_LEN = 32` bytes of its encoding. -/
def PublicKey.toXorName : PublicKey → XorName
  | .Ed25519 key => ⟨key⟩
  | .Bls key => ⟨key.take 32⟩
  | .BlsShare key => ⟨key.take 32⟩

/-- A signature share with its index in the combined collection
(`keys/mod.rs`). -/
structure SignatureShare where
  index : Nat
  share : Nat
deriving DecidableEq, Repr

/-- Wrapper for different signature types (`keys/mod.rs`); scheme-specific
signature material embedded as an opaque `Nat`. -/
inductive Signature where
  | Ed25519 (sig : Nat)
  | Bls (sig : Nat)
  | BlsShare (sig : SignatureShare)
deriving DecidableEq, Repr

/-- The three signature schemes of the closed variant set. -/
inductive SigScheme where
  | Ed25519
  | Bls
  | BlsShare
deriving DecidableEq, Repr

def PublicKey.scheme : PublicKey → SigScheme
  | .Ed25519 _ => .Ed25519
  | .Bls _ => .Bls
  | .BlsShare _ => .BlsShare

def Signature.scheme : Signature → SigScheme
  | .Ed25519 _ => .Ed25519
  | .Bls _ => .Bls
  | .BlsShare _ => .BlsShare

/-- `PublicKey::verify` from `keys/mod.rs` (identical in
`keys/public_key.rs`). The native verification predicates of the external
crates (`ed25519_dalek`, `threshold_crypto`) are taken as parameters
`edVerify`, `blsVerify`, `blsShareVerify` (key bytes → signature → message →
valid); a key/signature pair of different schemes short-circuits to
`SigningKeyTypeMismatch`, and note that share verification uses only the
share component of the signature, not its index. -/
def PublicKey.verify (edVerify : List Nat → Nat → List Nat → Bool)
    (blsVerify : List Nat → Nat → List Nat → Bool)
    (blsShareVerify : List Nat → Nat → List Nat → Bool)
    (key : PublicKey) (signature : Signature) (data : List Nat) :
    Except Error Unit :=
  match key, signature with
  | .Ed25519 pk, .Ed25519 sig =>
    if edVerify pk sig data then .ok () else .error .InvalidSignature
  | .Bls pk, .Bls sig =>
    if blsVerify pk sig data then .ok () else .error .InvalidSignature
  | .BlsShare pk, .BlsShare sig =>
    if blsShareVerify pk sig.share data then .ok () else .error .InvalidSignature
  | _, _ => .error .SigningKeyTypeMismatch

/-- The scheme's native verification verdict for a matching key/signature
pair; `false` on mismatched schemes (unused in that case). -/
def nativeValid (edVerify blsVerify blsShareVerify : List Nat → Nat → List Nat → Bool)
    (key : PublicKey) (signature : Signature) (data : List Nat) : Bool :=
  match key, signature with
  | .Ed25519 pk, .Ed25519 sig => edVerify pk sig data
  | .Bls pk, .Bls sig => blsVerify pk sig data
  | .BlsShare pk, .BlsShare sig => blsShareVerify pk sig.share data
  | _, _ => false

/-- Modelled from the spec: hard-erasure sub-commands, from `permissions.rs`
(not among the sources at hand); shape pinned by the test module of
`sequence.rs`. -/
inductive HardErasureCmd where
  | HardDelete
  | HardUpdate
deriving DecidableEq, Repr

/-- Modelled from the spec: write-class permission keys (`permissions.rs`). -/
inductive SequenceWrite where
  | Append
  | ModifyPermissions
  | HardErasure (cmd : HardErasureCmd)
deriving DecidableEq, Repr

/-- Modelled from the spec: the modifiable permission kinds
(`permissions.rs`). -/
inductive ModifyableSequencePermissions where
  | ReadData
  | ReadOwners
  | ReadPermissions
  | Write (write : SequenceWrite)
deriving DecidableEq, Repr

/-- Modelled from the spec: sequence commands (`permissions.rs`). -/
inductive SequenceCmd where
  | Append
  | ModifyPermissions (permission : ModifyableSequencePermissions)
deriving DecidableEq, Repr

/-- Modelled from the spec: read-class sequence queries (`permissions.rs`). -/
inductive SequenceQuery where
  | ReadData
  | ReadOwners
  | ReadPermissions
deriving DecidableEq, Repr

/-- Modelled from the spec: command request types (`permissions.rs`). -/
inductive CmdType where
  | Sequence (cmd : SequenceCmd)
deriving DecidableEq, Repr

/-- Modelled from the spec: query request types (`permissions.rs`). -/
inductive QueryType where
  | Sequence (query : SequenceQuery)
deriving DecidableEq, Repr

/-- Modelled from the spec: a request is either a command or a read-class
query (`permissions.rs`); the split is what `Data::is_permitted` in
`sequence.rs` matches on. -/
inductive Request where
  | Cmd (cmd : CmdType)
  | Query (query : QueryType)
deriving DecidableEq, Repr

/-- The wildcard-capable user selector of public permission tables
(`permissions.rs`, not among the sources at hand; shape pinned by the test
module of `sequence.rs`). -/
inductive User where
  | Anyone
  | Specific (key : PublicKey)
deriving DecidableEq, Repr

/-- Modelled from the spec: a per-user public policy table mapping requests to
an allow/deny bit; absence of a request yields no verdict (`none`), letting
the caller fall back to the wildcard entry (§4.2 step 3). -/
structure PublicPermissionSet where
  permissions : List (Request × Bool)
deriving DecidableEq, Repr

def PublicPermissionSet.is_permitted (set : PublicPermissionSet)
    (request : Request) : Option Bool :=
  set.permissions.lookup request

/-- Modelled from the spec: a per-user private policy table; absence of a
request means deny, with no further fallback (§4.2 step 3). -/
structure PrivatePermissionSet where
  permissions : List (Request × Bool)
deriving DecidableEq, Repr

def PrivatePermissionSet.is_permitted (set : PrivatePermissionSet)
    (request : Request) : Bool :=
  match set.permissions.lookup request with
  | some b => b
  | none => false

/-- A public permission snapshot: policy table keyed by `User` (wildcard
`Anyone` allowed) plus the causal snapshot reference fields
(`permissions.rs`; field shape pinned by the test module of `sequence.rs`). -/
structure PublicPermissions where
  permissions : List (User × PublicPermissionSet)
  expected_data_index : Nat
  expected_owners_index : Nat
deriving DecidableEq, Repr

/-- The wildcard branch of public permission lookup: the verdict of the
`Anyone` entry, denying when the entry or the request is absent. -/
def PublicPermissions.anyone_permitted (self : PublicPermissions)
    (request : Request) : Bool :=
  match self.permissions.lookup User.Anyone with
  | some set =>
    match set.is_permitted request with
    | some verdict => verdict
    | none => false
  | none => false

/-- Modelled from the spec (§4.2 step 3): public lookup checks the explicit
per-key entry first; if the user or the request is absent there, it falls
back to the wildcard `Anyone` entry; absence everywhere denies. -/
def PublicPermissions.is_permitted (self : PublicPermissions)
    (user : PublicKey) (request : Request) : Bool :=
  match self.permissions.lookup (User.Specific user) with
  | some set =>
    match set.is_permitted request with
    | some verdict => verdict
    | none => self.anyone_permitted request
  | none => self.anyone_permitted request

/-- A private permission snapshot (`permissions.rs`; field shape pinned by the
test module of `sequence.rs`). -/
structure PrivatePermissions where
  permissions : List (PublicKey × PrivatePermissionSet)
  expected_data_index : Nat
  expected_owners_index : Nat
deriving DecidableEq, Repr

/-- Modelled from the spec (§4.2 step 3): private lookup has no wildcard
fallback; an unlisted user is denied. -/
def PrivatePermissions.is_permitted (self : PrivatePermissions)
    (user : PublicKey) (request : Request) : Bool :=
  match self.permissions.lookup user with
  | some set => set.is_permitted request
  | none => false

/-- The `Permissions` trait of `permissions.rs` as used by `sequence.rs`:
every snapshot flavour exposes its causal reference fields and a per-user
permission verdict. -/
class Permissions (P : Type) where
  expected_data_index : P → Nat
  expected_owners_index : P → Nat
  is_permitted : P → PublicKey → Request → Bool

instance : Permissions PublicPermissions where
  expected_data_index p := p.expected_data_index
  expected_owners_index p := p.expected_owners_index
  is_permitted p user request := p.is_permitted user request

instance : Permissions PrivatePermissions where
  expected_data_index p := p.expected_data_index
  expected_owners_index p := p.expected_owners_index
  is_permitted p user request := p.is_permitted user request

/-- An owner-history entry (`shared_data.rs`, not among the sources at hand;
field shape pinned by its uses throughout `sequence.rs`). -/
structure Owner where
  public_key : PublicKey
  expected_data_index : Nat
  expected_permissions_index : Nat
deriving DecidableEq, Repr

/-- A sequence address: visibility × ordering flavour plus name and tag
(`shared_data.rs`, not among the sources at hand; the four variants are pinned
by the `new` constructors in `sequence.rs`). -/
inductive Address where
  | PublicSentried (name : XorName) (tag : Nat)
  | Public (name : XorName) (tag : Nat)
  | PrivateSentried (name : XorName) (tag : Nat)
  | Private (name : XorName) (tag : Nat)
deriving DecidableEq, Repr

/-- An opaque byte value of the data log. -/
def Value := List Nat
deriving DecidableEq, Repr

/-- The generic sequence core of `sequence.rs`: address, value log, permission
history and owner history. The Rust phantom flavour parameter `S` selects
which `append` is callable; here the sentried and non-sentried appends are two
functions on the same structure. -/
structure Sequence (P : Type) where
  address : Address
  data : List Value
  permissions : List P
  owners : List Owner
deriving DecidableEq, Repr

/-- A data entry paired with the index recorded for it
(`DataEntry` in `sequence.rs`). -/
structure DataEntry where
  index : Nat
  value : Value
deriving DecidableEq, Repr

namespace Sequence

variable {P : Type}

/-- `Sequence::expected_data_index`: the data length. -/
def expected_data_index (s : Sequence P) : Nat := s.data.length

/-- `Sequence::expected_owners_index`: the owner-history length. -/
def expected_owners_index (s : Sequence P) : Nat := s.owners.length

/-- `Sequence::expected_permissions_index`: the permission-history length. -/
def expected_permissions_index (s : Sequence P) : Nat := s.permissions.length

/-- `Sequence::get`: the value at an absolute index, if present. -/
def get (s : Sequence P) (index : Nat) : Option Value := s.data[index]?

/-- `Sequence::current_data_entry`: the last value paired with the data
length. -/
def current_data_entry (s : Sequence P) : Option DataEntry :=
  match s.data.getLast? with
  | some value => some ⟨s.data.length, value⟩
  | none => none

/-- `Sequence::in_range`: the values in the resolved half-open range. -/
def in_range (s : Sequence P) (start finish : Index) : Option (List Value) :=
  match to_absolute_range start finish s.data.length with
  | some (a, b) => some ((s.data.drop a).take (b - a))
  | none => none

/-- `Sequence::permissions_at` (named `permissions_at` after the accessor in
`sequence.rs`). -/
def permissions_at (s : Sequence P) (index : Index) : Option P :=
  match to_absolute_index index s.permissions.length with
  | some i => s.permissions[i]?
  | none => none

/-- `Sequence::owner_at`. -/
def owner_at (s : Sequence P) (index : Index) : Option Owner :=
  match to_absolute_index index s.owners.length with
  | some i => s.owners[i]?
  | none => none

/-- `Sequence::is_permitted`: the latest owner is permitted unconditionally;
otherwise the latest permission snapshot decides, and its absence denies. -/
def is_permitted [Permissions P] (s : Sequence P) (user : PublicKey)
    (request : Request) : Bool :=
  if (match s.owner_at (.FromEnd 1) with
      | some owner => owner.public_key == user
      | none => false) then
    true
  else
    match s.permissions_at (.FromEnd 1) with
    | some permissions => Permissions.is_permitted permissions user request
    | none => false

/-- `Sequence::is_owner`. -/
def is_owner (s : Sequence P) (user : PublicKey) : Bool :=
  match s.owner_at (.FromEnd 1) with
  | some owner => user = owner.public_key
  | none => false

/-- `Sequence::set_permissions`: check-then-append; each failed check returns
before any state change. -/
def set_permissions [Permissions P] (s : Sequence P) (permissions : P)
    (index : Nat) : Except Error Unit × Sequence P :=
  if Permissions.expected_data_index permissions ≠ s.expected_data_index then
    (.error (.InvalidSuccessor s.expected_data_index), s)
  else if Permissions.expected_owners_index permissions ≠ s.expected_owners_index then
    (.error (.InvalidOwnersSuccessor s.expected_owners_index), s)
  else if s.expected_permissions_index ≠ index then
    (.error (.InvalidSuccessor s.expected_permissions_index), s)
  else
    (.ok (), { s with permissions := s.permissions ++ [permissions] })

/-- `Sequence::set_owner`: check-then-append; each failed check returns before
any state change. -/
def set_owner (s : Sequence P) (owner : Owner) (index : Nat) :
    Except Error Unit × Sequence P :=
  if owner.expected_data_index ≠ s.expected_data_index then
    (.error (.InvalidSuccessor s.expected_data_index), s)
  else if owner.expected_permissions_index ≠ s.expected_permissions_index then
    (.error (.InvalidPermissionsSuccessor s.expected_permissions_index), s)
  else if s.expected_owners_index ≠ index then
    (.error (.InvalidSuccessor s.expected_owners_index), s)
  else
    (.ok (), { s with owners := s.owners ++ [owner] })

/-- `Sequence<P, NonSentried>::append`: unconditional extension of the data
log. -/
def append (s : Sequence P) (values : List Value) :
    Except Error Unit × Sequence P :=
  (.ok (), { s with data := s.data ++ values })

/-- `Sequence<P, Sentried>::append`: the supplied expected index must equal
the data length, else `InvalidSuccessor` carrying that length. -/
def append_sentried (s : Sequence P) (values : List Value)
    (expected_index : Nat) : Except Error Unit × Sequence P :=
  if expected_index ≠ s.data.length then
    (.error (.InvalidSuccessor s.data.length), s)
  else
    (.ok (), { s with data := s.data ++ values })

/-- `Sequence::shell`: resolve the target data index against the current data
length, then copy with the value log emptied and both histories filtered to
entries whose recorded `expected_data_index` is at most the resolved index. -/
def shell [Permissions P] (s : Sequence P) (expected_data_index : Index) :
    Except Error (Sequence P) :=
  match to_absolute_index expected_data_index s.expected_data_index with
  | none => .error .NoSuchEntry
  | some target =>
    .ok { address := s.address
          data := []
          permissions :=
            s.permissions.filter (fun p => Permissions.expected_data_index p ≤ target)
          owners :=
            s.owners.filter (fun owner => owner.expected_data_index ≤ target) }

end Sequence

/-- `Sequence::<PublicPermissions, Sentried>::new`. -/
def PublicSentriedSequence.new (name : XorName) (tag : Nat) :
    Sequence PublicPermissions :=
  { address := .PublicSentried name tag, data := [], permissions := [], owners := [] }

/-- `Sequence::<PublicPermissions, NonSentried>::new`. -/
def PublicSequence.new (name : XorName) (tag : Nat) :
    Sequence PublicPermissions :=
  { address := .Public name tag, data := [], permissions := [], owners := [] }

/-- `Sequence::<PrivatePermissions, Sentried>::new`. -/
def PrivateSentriedSequence.new (name : XorName) (tag : Nat) :
    Sequence PrivatePermissions :=
  { address := .PrivateSentried name tag, data := [], permissions := [], owners := [] }

/-- `Sequence::<PrivatePermissions, NonSentried>::new`. -/
def PrivateSequence.new (name : XorName) (tag : Nat) :
    Sequence PrivatePermissions :=
  { address := .Private name tag, data := [], permissions := [], owners := [] }

/-- The `Data` enum of `sequence.rs`, storing one of the four sequence
variants. -/
inductive Data where
  | PublicSentried (s : Sequence PublicPermissions)
  | Public (s : Sequence PublicPermissions)
  | PrivateSentried (s : Sequence PrivatePermissions)
  | Private (s : Sequence PrivatePermissions)
deriving DecidableEq, Repr

/-- `Data::is_permitted`: a query on a public variant is permitted outright;
every other case delegates to the stored sequence's `is_permitted`. -/
def Data.is_permitted (d : Data) (request : Request) (user : PublicKey) : Bool :=
  match d, request with
  | .PublicSentried _, .Query _ => true
  | .Public _, .Query _ => true
  | .PublicSentried s, _ => s.is_permitted user request
  | .Public s, _ => s.is_permitted user request
  | .PrivateSentried s, _ => s.is_permitted user request
  | .Private s, _ => s.is_permitted user request

/-- The `crdts::Dot` causal identifier: an actor and a per-actor counter.
`TransferId = Dot<PublicKey>` in `transfer.rs`. -/
structure Dot (A : Type) where
  actor : A
  counter : Nat
deriving DecidableEq, Repr

/-- Restriction policy of a transfer (`transfer.rs`). -/
inductive TransferRestrictions where
  | RequireHistory
  | ExpectNoHistory
  | NoRestriction
deriving DecidableEq, Repr

/-- A money transfer operation (`transfer.rs`); the `Money` amount is embedded
as a `Nat`, and the Rust field `to` (the destination, credit-side key) is a
reserved word here and is spelled `to_key`. -/
structure Transfer where
  id : Dot PublicKey
  to_key : PublicKey
  amount : Nat
  restrictions : TransferRestrictions
deriving DecidableEq, Repr

/-- Modelled from the spec: the client-signed transfer command
(`ValidateTransfer` of §3); `request/money.rs` consumes it under the name
`SignedTransfer`, whose declaration is not among the sources at hand, with
fields `transfer` and a client signature. -/
structure SignedTransfer where
  transfer : Transfer
  client_signature : Signature
deriving DecidableEq, Repr

/-- Modelled from the spec: the section's consensus certificate over a signed
transfer (`ProofOfAgreement` of §3); `request/money.rs` consumes it under the
name `DebitAgreementProof`, whose declaration is not among the sources at
hand, with fields `signed_transfer` and the section signature. -/
structure DebitAgreementProof where
  signed_transfer : SignedTransfer
  section_sig : Signature
deriving DecidableEq, Repr

/-- Modelled from the spec: the miscellaneous authorisation kind used by
`MoneyRequest::authorisation_kind` (declared in the request envelope module,
not among the sources at hand). -/
inductive MiscAuthKind where
  | MutAndTransferMoney
deriving DecidableEq, Repr

/-- Modelled from the spec: the money authorisation kinds used by
`MoneyRequest::authorisation_kind` (declared in the request envelope module,
not among the sources at hand). -/
inductive MoneyAuthKind where
  | GetBalance
  | GetHistory
deriving DecidableEq, Repr

/-- Modelled from the spec: the authorisation classes of the request envelope
(declared in the request envelope module, not among the sources at hand);
`None` marks requests that need no extra authorisation. -/
inductive AuthorisationKind where
  | None
  | Misc (kind : MiscAuthKind)
  | Money (kind : MoneyAuthKind)
deriving DecidableEq, Repr

/-- The `MoneyRequest` enum of `request/money.rs`. The Rust field `at` of
`GetHistory` is a reserved word here and is spelled `at_key`. -/
inductive MoneyRequest where
  | ValidateTransfer (signed_transfer : SignedTransfer)
  | RegisterTransfer (proof : DebitAgreementProof)
  | PropagateTransfer (proof : DebitAgreementProof)
  | GetBalance (key : PublicKey)
  | GetHistory (at_key : PublicKey) (since_version : Nat)
deriving DecidableEq, Repr

/-- `MoneyRequest::authorisation_kind`: proof-carrying requests need no extra
authorisation; validation needs mutation-and-transfer authority; the queries
need the matching money authority. -/
def MoneyRequest.authorisation_kind : MoneyRequest → AuthorisationKind
  | .PropagateTransfer _ => .None
  | .RegisterTransfer _ => .None
  | .ValidateTransfer _ => .Misc .MutAndTransferMoney
  | .GetBalance _ => .Money .GetBalance
  | .GetHistory _ _ => .Money .GetHistory

/-- `MoneyRequest::dest_address`: propagation goes to the section of the
credit key; registration and validation go to the section of the debit
actor's key; balance and history queries are answered locally. -/
def MoneyRequest.dest_address : MoneyRequest → Option XorName
  | .PropagateTransfer proof =>
    some proof.signed_transfer.transfer.to_key.toXorName
  | .RegisterTransfer proof =>
    some proof.signed_transfer.transfer.id.actor.toXorName
  | .ValidateTransfer signed_transfer =>
    some signed_transfer.transfer.id.actor.toXorName
  | .GetBalance _ => none
  | .GetHistory _ _ => none

/-- A sample BLS public key, for concrete witnesses. -/
def pk0 : PublicKey := .Bls [7]

/-- A second sample BLS public key. -/
def pk1 : PublicKey := .Bls [8]

/-- A sample name, mirroring `XorName([1; 32])` of the test module. -/
def name1 : XorName := ⟨List.replicate 32 1⟩

/-- The empty private sentried sequence the test module starts from. -/
def sampleSeq : Sequence PrivatePermissions := PrivateSentriedSequence.new name1 10000

/-- An owner whose causal fields are correct for an empty sequence. -/
def ownerZero : Owner := ⟨pk0, 0, 0⟩

/-- An owner whose `expected_data_index` is wrong for an empty sequence
(the test module's `expected_data_index: 64`). -/
def ownerBadData : Owner := ⟨pk0, 64, 0⟩

/-- The append command request of the test module's `get_append_cmd`. -/
def append_request : Request := .Cmd (.Sequence .Append)

/-- `sampleSeq` after a successful `set_owner` of `ownerZero`. -/
def ownedSeq : Sequence PrivatePermissions := (sampleSeq.set_owner ownerZero 0).2

/-- A second owner, recorded at data length 1. -/
def owner1 : Owner := ⟨pk1, 1, 0⟩

/-- A sequence holding two owners recorded at data lengths 0 and 1, for the
`shell` witness. -/
def shellSeq : Sequence PrivatePermissions :=
  (((ownedSeq.append_sentried [[9]] 0).2).set_owner owner1 1).2

/-- The four values of Scenario C, as ASCII bytes of
`"key0", "value0", "key1", "value1"`. -/
def scenarioValues : List Value :=
  [[107, 101, 121, 48], [118, 97, 108, 117, 101, 48],
   [107, 101, 121, 49], [118, 97, 108, 117, 101, 49]]

/-- The public sentried sequence of Scenario C after appending the four
values at expected index 0. -/
def scenarioSeq : Sequence PublicPermissions :=
  ((PublicSentriedSequence.new name1 10).append_sentried scenarioValues 0).2

end SafeNd

namespace SafeNd

/-- C3: sentried `append` succeeds iff the supplied expected index equals the
current data length, and then appends all supplied values; on mismatch it
returns `InvalidSuccessor` carrying the current data length with the state
unchanged; non-sentried `append` always succeeds and appends all values. -/
theorem append_characterisation {P : Type} (s : Sequence P)
    (values : List Value) (expected_index : Nat) :
    ((s.append_sentried values expected_index).1 = .ok () ↔
      expected_index = s.data.length) ∧
    (expected_index = s.data.length →
      (s.append_sentried values expected_index).2.data = s.data ++ values) ∧
    (expected_index ≠ s.data.length →
      s.append_sentried values expected_index =
        (.error (.InvalidSuccessor s.data.length), s)) ∧
    ((s.append values).1 = .ok () ∧
      (s.append values).2.data = s.data ++ values) := by
  unfold Sequence.append_sentried Sequence.append
  by_cases h : expected_index = s.data.length <;> simp [h]

/-- Witness for C3: on the empty sequence, appending at expected index 0
succeeds and at expected index 1 fails with `InvalidSuccessor 0`. -/
theorem append_characterisation_witness :
    (sampleSeq.append_sentried [[5]] 0).2.data = [[5]] ∧
    sampleSeq.append_sentried [[5]] 1 =
      (.error (.InvalidSuccessor 0), sampleSeq) :=
  ⟨(append_characterisation sampleSeq [[5]] 0).2.1 rfl,
   (append_characterisation sampleSeq [[5]] 1).2.2.1 (by decide)⟩

/-- C10: on a non-empty data log, `current_data_entry` returns the last value
paired with the total data length — one past the zero-based position of that
value, not the position itself; on an empty log it returns `none`. -/
theorem current_data_entry_characterisation {P : Type} (s : Sequence P) :
    (s.data = [] → s.current_data_entry = none) ∧
    (∀ h : s.data ≠ [],
      s.current_data_entry =
        some ⟨(s.data.length - 1) + 1, s.data.getLast h⟩) := by
  constructor
  · intro h
    simp [Sequence.current_data_entry, h]
  · intro h
    have hpos : 0 < s.data.length := List.length_pos.mpr h
    simp [Sequence.current_data_entry, List.getLast?_eq_getLast_of_ne_nil h]
    omega

/-- Witness for C10: the fresh sequence has no current entry; after appending
two values the current entry pairs the second value with index 2. -/
theorem current_data_entry_witness :
    sampleSeq.current_data_entry = none ∧
    (sampleSeq.append_sentried [[5], [6]] 0).2.current_data_entry =
      some ⟨2, [6]⟩ := by
  refine ⟨(current_data_entry_characterisation sampleSeq).1 rfl, ?_⟩
  have h := (current_data_entry_characterisation
    (sampleSeq.append_sentried [[5], [6]] 0).2).2 (by decide)
  exact h

/-- C7: `verify` fails with the scheme-mismatch error exactly when the key
and signature name different schemes (any pair of distinct schemes among
Ed25519, BLS and BLS share); on matching schemes it returns `ok` exactly when
the scheme's native verification predicate accepts and `InvalidSignature`
otherwise, for every choice of native predicates. -/
theorem verify_characterisation
    (edVerify blsVerify blsShareVerify : List Nat → Nat → List Nat → Bool)
    (key : PublicKey) (signature : Signature) (data : List Nat) :
    PublicKey.verify edVerify blsVerify blsShareVerify key signature data =
      if key.scheme = signature.scheme then
        if nativeValid edVerify blsVerify blsShareVerify key signature data then
          .ok ()
        else
          .error .InvalidSignature
      else
        .error .SigningKeyTypeMismatch := by
  cases key <;> cases signature <;>
    simp [PublicKey.verify, nativeValid, PublicKey.scheme, Signature.scheme]

/-- C9: `RegisterTransfer` and `ValidateTransfer` are routed to the XOR name
of the transfer actor's key, `PropagateTransfer` to the XOR name of the
destination (credit) key, the balance and history queries have no
destination, and the two proof-carrying variants need no authorisation. -/
theorem money_request_routing (signed_transfer : SignedTransfer)
    (proof : DebitAgreementProof) (key at_key : PublicKey)
    (since_version : Nat) :
    (MoneyRequest.RegisterTransfer proof).dest_address =
      some proof.signed_transfer.transfer.id.actor.toXorName ∧
    (MoneyRequest.ValidateTransfer signed_transfer).dest_address =
      some signed_transfer.transfer.id.actor.toXorName ∧
    (MoneyRequest.PropagateTransfer proof).dest_address =
      some proof.signed_transfer.transfer.to_key.toXorName ∧
    (MoneyRequest.GetBalance key).dest_address = none ∧
    (MoneyRequest.GetHistory at_key since_version).dest_address = none ∧
    (MoneyRequest.RegisterTransfer proof).authorisation_kind = .None ∧
    (MoneyRequest.PropagateTransfer proof).authorisation_kind = .None :=
  ⟨rfl, rfl, rfl, rfl, rfl, rfl, rfl⟩

/-- C2: whenever `set_owner`, `set_permissions` or the sentried `append`
returns an error, the returned state is the input state — rejection never
mutates the data log, the owner history or the permission history. -/
theorem rejection_leaves_state_unchanged {P : Type} [Permissions P]
    (s : Sequence P) :
    (∀ owner index e, (s.set_owner owner index).1 = .error e →
      (s.set_owner owner index).2 = s) ∧
    (∀ permissions index e,
      (s.set_permissions permissions index).1 = .error e →
      (s.set_permissions permissions index).2 = s) ∧
    (∀ values expected_index e,
      (s.append_sentried values expected_index).1 = .error e →
      (s.append_sentried values expected_index).2 = s) := by
  refine ⟨fun owner index e h => ?_, fun permissions index e h => ?_,
    fun values expected_index e h => ?_⟩
  · simp only [Sequence.set_owner] at h ⊢
    split_ifs at h ⊢ <;> simp_all
  · simp only [Sequence.set_permissions] at h ⊢
    split_ifs at h ⊢ <;> simp_all
  · simp only [Sequence.append_sentried] at h ⊢
    split_ifs at h ⊢
    rfl

/-- Witness for C2: three concrete rejected calls on the empty sequence, each
returning it unchanged. -/
theorem rejection_leaves_state_unchanged_witness :
    (sampleSeq.set_owner ownerBadData 0).2 = sampleSeq ∧
    (sampleSeq.set_permissions ⟨[], 64, 0⟩ 0).2 = sampleSeq ∧
    (sampleSeq.append_sentried [[5]] 3).2 = sampleSeq :=
  ⟨(rejection_leaves_state_unchanged sampleSeq).1 ownerBadData 0
      (.InvalidSuccessor 0) rfl,
   (rejection_leaves_state_unchanged sampleSeq).2.1 ⟨[], 64, 0⟩ 0
      (.InvalidSuccessor 0) rfl,
   (rejection_leaves_state_unchanged sampleSeq).2.2 [[5]] 3
      (.InvalidSuccessor 0) rfl⟩

/-- C1 (counterexample): on the empty private sentried sequence, a call of
`set_owner` whose only mismatch is the owner's `expected_data_index` and a
call whose only mismatch is the supplied index both fail with the very same
error `InvalidSuccessor 0` — the returned error cannot name which of the
three fields mismatched. -/
theorem set_owner_error_does_not_name_field :
    (ownerBadData.expected_data_index ≠ sampleSeq.data.length ∧
     ownerBadData.expected_permissions_index = sampleSeq.permissions.length ∧
     0 = sampleSeq.owners.length) ∧
    (ownerZero.expected_data_index = sampleSeq.data.length ∧
     ownerZero.expected_permissions_index = sampleSeq.permissions.length ∧
     1 ≠ sampleSeq.owners.length) ∧
    (sampleSeq.set_owner ownerBadData 0).1 =
      (sampleSeq.set_owner ownerZero 1).1 ∧
    (sampleSeq.set_owner ownerBadData 0).1 = .error (.InvalidSuccessor 0) :=
  ⟨⟨by decide, rfl, rfl⟩, ⟨rfl, rfl, by decide⟩, rfl, rfl⟩

/-- C1 (amended): `set_owner(owner, index)` succeeds iff
`owner.expected_data_index`, `owner.expected_permissions_index` and `index`
equal the current data, permissions-history and owners-history lengths, and
then appends exactly the given owner; each failure returns the error of the
first failing check carrying the current length of the mismatched collection,
where a permissions mismatch is distinguished as
`InvalidPermissionsSuccessor` while a data-index mismatch and a
supplied-index mismatch both surface as `InvalidSuccessor`. -/
theorem set_owner_characterisation {P : Type} (s : Sequence P)
    (owner : Owner) (index : Nat) :
    ((s.set_owner owner index).1 = .ok () ↔
      (owner.expected_data_index = s.data.length ∧
       owner.expected_permissions_index = s.permissions.length ∧
       index = s.owners.length)) ∧
    ((s.set_owner owner index).1 = .ok () →
      (s.set_owner owner index).2 = { s with owners := s.owners ++ [owner] }) ∧
    (owner.expected_data_index ≠ s.data.length →
      s.set_owner owner index = (.error (.InvalidSuccessor s.data.length), s)) ∧
    (owner.expected_data_index = s.data.length →
     owner.expected_permissions_index ≠ s.permissions.length →
      s.set_owner owner index =
        (.error (.InvalidPermissionsSuccessor s.permissions.length), s)) ∧
    (owner.expected_data_index = s.data.length →
     owner.expected_permissions_index = s.permissions.length →
     index ≠ s.owners.length →
      s.set_owner owner index =
        (.error (.InvalidSuccessor s.owners.length), s)) := by
  simp only [Sequence.set_owner, Sequence.expected_data_index,
    Sequence.expected_permissions_index, Sequence.expected_owners_index]
  by_cases h1 : owner.expected_data_index = s.data.length <;>
    by_cases h2 : owner.expected_permissions_index = s.permissions.length <;>
    by_cases h3 : index = s.owners.length <;>
    simp_all [eq_comm]

/-- Witness for C1: on the empty sequence the zero-field owner is accepted at
index 0 and recorded; the bad-data owner is rejected with
`InvalidSuccessor 0`. -/
theorem set_owner_characterisation_witness :
    (sampleSeq.set_owner ownerZero 0).1 = .ok () ∧
    (sampleSeq.set_owner ownerZero 0).2.owners = [ownerZero] ∧
    sampleSeq.set_owner ownerBadData 0 =
      (.error (.InvalidSuccessor 0), sampleSeq) := by
  have h := set_owner_characterisation sampleSeq ownerZero 0
  have hok : (sampleSeq.set_owner ownerZero 0).1 = .ok () :=
    h.1.mpr ⟨rfl, rfl, rfl⟩
  refine ⟨hok, ?_,
    (set_owner_characterisation sampleSeq ownerBadData 0).2.2.1 (by decide)⟩
  rw [h.2.1 hok]
  rfl

/-- C4: on a public sequence (sentried or not) every query is permitted for
every key whatever the histories hold; and with no owner and no permission
entries, an append command is denied for every key. -/
theorem public_visibility (s : Sequence PublicPermissions) (query : QueryType)
    (user : PublicKey) :
    ((Data.Public s).is_permitted (.Query query) user = true ∧
     (Data.PublicSentried s).is_permitted (.Query query) user = true) ∧
    (s.owners = [] → s.permissions = [] →
      ((Data.Public s).is_permitted append_request user = false ∧
       (Data.PublicSentried s).is_permitted append_request user = false)) := by
  refine ⟨⟨rfl, rfl⟩, fun howners hperms => ?_⟩
  have hseq : s.is_permitted user append_request = false := by
    simp [Sequence.is_permitted, Sequence.owner_at, Sequence.permissions_at,
      to_absolute_index, howners, hperms]
  exact ⟨hseq, hseq⟩

/-- Witness for C4: on the fresh public sentried sequence, a read query from
a key succeeds and an append command from the same key is denied. -/
theorem public_visibility_witness :
    (Data.PublicSentried (PublicSentriedSequence.new name1 100)).is_permitted
      (.Query (.Sequence .ReadData)) pk0 = true ∧
    (Data.PublicSentried (PublicSentriedSequence.new name1 100)).is_permitted
      append_request pk0 = false := by
  have h := public_visibility (PublicSentriedSequence.new name1 100)
    (.Sequence .ReadData) pk0
  exact ⟨h.1.2, (h.2 rfl rfl).2⟩

/-- C5: on any sequence whose owner history is non-empty, the user holding
the latest owner's public key is permitted every request, whatever the
permission history holds. -/
theorem latest_owner_always_permitted {P : Type} [Permissions P]
    (s : Sequence P) (user : PublicKey) (request : Request) (owner : Owner)
    (hlast : s.owners.getLast? = some owner)
    (hkey : owner.public_key = user) :
    s.is_permitted user request = true := by
  have hne : s.owners ≠ [] := by
    intro hnil
    rw [hnil] at hlast
    simp at hlast
  have hlen : 1 ≤ s.owners.length := List.length_pos.mpr hne
  have hidx : s.owners[s.owners.length - 1]? = some owner := by
    rw [← List.getLast?_eq_getElem?]
    exact hlast
  simp [Sequence.is_permitted, Sequence.owner_at, to_absolute_index, hlen,
    hidx, hkey]

/-- Witness for C5: the owner key of the one-owner private sequence may issue
the append command (the private permission history is empty). -/
theorem latest_owner_always_permitted_witness :
    ownedSeq.is_permitted pk0 append_request = true :=
  latest_owner_always_permitted ownedSeq pk0 append_request ownerZero rfl rfl

/-- C6: `in_range` returns `some` exactly when both relative bounds resolve
against the data length and the resolved start does not exceed the resolved
end, yielding the values of that half-open range (equal bounds give the empty
list); otherwise it returns `none`. Concretely, on the Scenario C sequence of
four appended values, `[FromStart 0, FromStart 2)` is the first two values,
`[FromEnd 4, FromEnd 0)` is all four, `[FromStart 1, FromStart 0)` is `none`
and `[FromStart 0, FromStart 5)` is `none`. -/
theorem in_range_characterisation :
    (∀ (P : Type) (s : Sequence P) (start finish : Index) (xs : List Value),
      s.in_range start finish = some xs ↔
        ∃ a b, to_absolute_index start s.data.length = some a ∧
          to_absolute_index finish s.data.length = some b ∧ a ≤ b ∧
          xs = (s.data.drop a).take (b - a)) ∧
    scenarioSeq.in_range (.FromStart 0) (.FromStart 2) =
      some [[107, 101, 121, 48], [118, 97, 108, 117, 101, 48]] ∧
    scenarioSeq.in_range (.FromEnd 4) (.FromEnd 0) = some scenarioValues ∧
    scenarioSeq.in_range (.FromStart 1) (.FromStart 0) = none ∧
    scenarioSeq.in_range (.FromStart 0) (.FromStart 5) = none := by
  refine ⟨?_, by decide, by decide, by decide, by decide⟩
  intro P s start finish xs
  simp only [Sequence.in_range, to_absolute_range]
  rcases h1 : to_absolute_index start s.data.length with _ | a <;>
    rcases h2 : to_absolute_index finish s.data.length with _ | b <;>
    simp [h1, h2]
  by_cases hab : a ≤ b <;> simp [hab, eq_comm]

/-- Witness for C6: the general characterisation applied to the Scenario C
sequence at `[FromStart 0, FromStart 2)`. -/
theorem in_range_characterisation_witness :
    scenarioSeq.in_range (.FromStart 0) (.FromStart 2) =
      some ((scenarioSeq.data.drop 0).take 2) :=
  (in_range_characterisation.1 PublicPermissions scenarioSeq
      (.FromStart 0) (.FromStart 2) _).mpr
    ⟨0, 2, by decide, by decide, by decide, rfl⟩

/-- C8: when the requested index resolves against the current data length,
`shell` returns a copy with the data log emptied and the permission and owner
histories filtered, in order, to the entries recorded at a data index not
above the resolved target; the embedding is pure, so the input sequence is
untouched. -/
theorem shell_characterisation {P : Type} [Permissions P] (s : Sequence P)
    (as_of : Index) (target : Nat)
    (h : to_absolute_index as_of s.data.length = some target) :
    s.shell as_of = .ok
      { address := s.address
        data := []
        permissions := s.permissions.filter
          (fun p => Permissions.expected_data_index p ≤ target)
        owners :=
          s.owners.filter (fun owner => owner.expected_data_index ≤ target) } := by
  simp only [Sequence.shell, Sequence.expected_data_index, h]

/-- Witness for C8: the two-owner sequence shelled at data index 0 keeps only
the owner recorded at data length 0 and drops the one recorded at length 1. -/
theorem shell_characterisation_witness :
    shellSeq.shell (.FromStart 0) =
      .ok { address := shellSeq.address, data := [], permissions := [],
            owners := [ownerZero] } := by
  rw [shell_characterisation shellSeq (.FromStart 0) 0 (by decide)]
  rfl

end SafeNd
